import Mathlib

/-!
Verification of the Perplexity search adapter (`search_mcp/perplexity_adapter.py`
and the tool wrapper in `search_mcp/server.py`) as a shallow embedding.

Python exceptions are modelled by `PyExc`, recording the class name, the
message, and the outcome of the `isinstance` tests the code performs
(`ValueError`, `OSError` — Python's `EnvironmentError` alias, which also
covers the built-in `TimeoutError` subclass — `RuntimeError`, and the httpx
transport-error hierarchy; `httpx.ConnectError`, `httpx.ConnectTimeout` and
`httpx.ReadTimeout` are all subclasses of `httpx.TransportError`, so one flag
captures the tuple check in `_is_transient_error`; httpx is a declared
dependency and importable, so the `httpx is not None` branch is taken).

The provider call is opaque: one attempt either returns a raw response,
raises an exception, or hangs past the deadline (`ProviderCallResult`).
`_TimeoutController.run` is parametrised here directly by the millisecond
value `int(timeout_s * 1000)` that appears in its error message.
`search_perplexity` is embedded as `searchPerplexityFull`, which additionally
returns an execution trace: how many provider clients were constructed and
the argument record of every underlying provider-call attempt.
-/

namespace SearchMCP

/-- Python substring containment (`needle in hay`) on explicit char lists. -/
def charsInfix (n : List Char) : List Char → Bool
  | [] => n.isPrefixOf []
  | c :: t => n.isPrefixOf (c :: t) || charsInfix n t

/-- Python's `needle in hay` for strings. -/
def pyInStr (needle hay : String) : Bool :=
  charsInfix needle.data hay.data

/-- The characters Python's `str.strip()` removes (ASCII whitespace). -/
def isPySpace (c : Char) : Bool :=
  c = ' ' || c = '\t' || c = '\n' || c = '\x0b' || c = '\x0c' || c = '\r'

/-- Python's `str.strip()`: drop leading and trailing whitespace. -/
def pyStrip (s : String) : String :=
  ⟨((s.data.dropWhile isPySpace).reverse.dropWhile isPySpace).reverse⟩

/-- Python's `str.lower()` (ASCII range, which covers all matching done here). -/
def pyLower (s : String) : String :=
  ⟨s.data.map Char.toLower⟩

/-- A raised Python exception: class name, message, and the `isinstance`
facts the adapter code inspects. -/
structure PyExc where
  className : String
  message : String
  isValueError : Bool
  isOSError : Bool
  isRuntimeError : Bool
  isHttpxTransportError : Bool
deriving DecidableEq

/-- Build a `PyExc`. -/
def mkExc (cn msg : String) (ve os rt hx : Bool) : PyExc :=
  ⟨cn, msg, ve, os, rt, hx⟩

/-- The `TimeoutError` raised by `_TimeoutController.run`; Python's built-in
`TimeoutError` is a subclass of `OSError`. -/
def timeoutErr (timeoutMs : Nat) : PyExc :=
  mkExc "TimeoutError"
    ("Perplexity search timed out after " ++ toString timeoutMs ++ "ms")
    false true false false

/-- Keywords `_is_transient_error` matches against the exception class name. -/
def nameKeywords : List String := ["timeout", "connect", "network", "transport"]

/-- Keywords `_is_transient_error` matches against the exception message. -/
def msgKeywords : List String :=
  ["timeout", "timed out", "connection", "transport",
   "temporarily unavailable", "try again"]

/-- The classifier `_is_transient_error`: structured httpx transport-error check first, then
keyword heuristics over the lowercased class name and message. -/
def isTransientError (exc : PyExc) : Bool :=
  if exc.isHttpxTransportError then true
  else
    let name := pyLower exc.className
    let msg := pyLower exc.message
    if nameKeywords.any (fun k => pyInStr k name) then true
    else if msgKeywords.any (fun k => pyInStr k msg) then true
    else false

/-- The validator `_validate_query`: strip, reject empty, reject trimmed length over 4096. -/
def validateQuery (query : String) : Except PyExc String :=
  let q := pyStrip query
  if q.data.isEmpty then
    .error (mkExc "ValueError"
      "query must be a non-empty string after trimming whitespace"
      true false false false)
  else if q.length > 4096 then
    .error (mkExc "ValueError"
      "query exceeds maximum length of 4096 characters"
      true false false false)
  else .ok q

/-- The `num_results` argument as the adapter sees it: `None`, a value
convertible by `int(...)` (recorded as the converted integer), or a value
`int(...)` rejects. -/
inductive NumInput
  | noneVal
  | intVal (n : Int)
  | nonIntVal (descr : String)
deriving DecidableEq

def MIN_RESULTS : Int := 1
def MAX_RESULTS : Int := 30
def DEFAULT_RESULTS : Int := 10

/-- The clamp `_clamp_num_results`: default 10 on `None`, `ValueError` on non-integer,
silent clamp into `[1, 30]`. -/
def clampNumResults (n : NumInput) : Except PyExc Int :=
  match n with
  | .noneVal => .ok DEFAULT_RESULTS
  | .nonIntVal _ =>
      .error (mkExc "ValueError" "num_results must be an integer"
        true false false false)
  | .intVal v =>
      if v < MIN_RESULTS then .ok MIN_RESULTS
      else if v > MAX_RESULTS then .ok MAX_RESULTS
      else .ok v

/-- The character class of `_HOSTNAME_REGEX`, `[a-z0-9.-]`. -/
def hostCharOk (c : Char) : Bool :=
  ('a' ≤ c && c ≤ 'z') || ('0' ≤ c && c ≤ '9') || c = '.' || c = '-'

/-- Normalized form of one host-filter entry, `raw.strip().lower()`. -/
def normEntry (raw : String) : String := pyLower (pyStrip raw)

/-- The per-entry loop of `_normalize_domains`; `seen` models the Python set,
`normalized` the output list (they always hold the same elements). -/
def normalizeDomainsGo : List String → List String → List String →
    Except PyExc (List String)
  | [], _, normalized => .ok normalized
  | raw :: rest, seen, normalized =>
      let d := normEntry raw
      if d.data.isEmpty then
        .error (mkExc "ValueError" "search_domain_filter contains an empty domain"
          true false false false)
      else if pyInStr "://" d || pyInStr "/" d || pyInStr " " d then
        .error (mkExc "ValueError"
          ("invalid domain (must be hostname only): " ++ raw)
          true false false false)
      else if d.length > 253 then
        .error (mkExc "ValueError" ("invalid domain (length > 253): " ++ raw)
          true false false false)
      else if !d.data.all hostCharOk then
        .error (mkExc "ValueError"
          ("invalid domain (allowed: a-z, 0-9, dot, hyphen): " ++ raw)
          true false false false)
      else if seen.contains d then
        normalizeDomainsGo rest seen normalized
      else
        normalizeDomainsGo rest (d :: seen) (normalized ++ [d])

/-- The filter validator `_normalize_domains`: `None` passes through; a provided list must be
non-empty; every entry is stripped, lowercased and validated; first
occurrences are kept in order, exact duplicates dropped. -/
def normalizeDomains (domains : Option (List String)) :
    Except PyExc (Option (List String)) :=
  match domains with
  | none => .ok none
  | some ds =>
      if ds.isEmpty then
        .error (mkExc "ValueError"
          "search_domain_filter, when provided, must be a non-empty list"
          true false false false)
      else
        match normalizeDomainsGo ds [] [] with
        | .error e => .error e
        | .ok normalized =>
            if normalized.isEmpty then
              .error (mkExc "ValueError"
                "search_domain_filter normalization resulted in an empty list"
                true false false false)
            else .ok (some normalized)

/-- The constructor `_create_client`: reads `PERPLEXITY_API_KEY` (empty default), strips it,
and raises `OSError` when the result is empty. -/
def createClient (envApiKey : Option String) : Except PyExc Unit :=
  let apiKey := pyStrip (envApiKey.getD "")
  if apiKey.data.isEmpty then
    .error (mkExc "OSError" "PERPLEXITY_API_KEY is required but missing or empty"
      false true false false)
  else .ok ()

/-! ## Provider responses and result normalization -/

/-- A dynamic Python value as far as `_normalize_results` inspects one. -/
inductive PyVal
  | vnone
  | vstr (s : String)
  | vint (n : Int)
deriving DecidableEq

/-- An object attribute: missing, or present with a value. -/
inductive Attr
  | absent
  | val (v : PyVal)
deriving DecidableEq

/-- Python's `getattr(obj, name, None)`. -/
def getattrOrNone : Attr → PyVal
  | .absent => .vnone
  | .val v => v

/-- Python truthiness for the values above. -/
def pyTruthy : PyVal → Bool
  | .vnone => false
  | .vstr s => !s.data.isEmpty
  | .vint n => n != 0

/-- Python `str(...)` for the values above. -/
def pyStr : PyVal → String
  | .vnone => "None"
  | .vstr s => s
  | .vint n => toString n

/-- Python's `x or fallback`. -/
def pyOrElse (v fallback : PyVal) : PyVal :=
  if pyTruthy v then v else fallback

/-- A provider result item as `_normalize_results` reads it. -/
structure ProviderItem where
  title : Attr
  url : Attr
  date : Attr
  snippet : Attr
deriving DecidableEq

/-- The `results` attribute of a provider response: absent or `None`
(falsy either way), or an actual item list. -/
inductive ResultsAttr
  | noResults
  | results (items : List ProviderItem)
deriving DecidableEq

/-- The normalized output record (`SearchResult` TypedDict); the optional
`date` key is an `Option`. -/
structure SearchResult where
  title : String
  url : String
  date : Option String
  last_update : String
  snippet : String
deriving DecidableEq

/-- The per-item body of `_normalize_results`. -/
def normalizeItem (item : ProviderItem) : SearchResult :=
  let title := pyOrElse (getattrOrNone item.title) (.vstr "")
  let url := pyOrElse (getattrOrNone item.url) (.vstr "")
  let date := getattrOrNone item.date
  let snippet := getattrOrNone item.snippet
  let lastUpdate := if pyTruthy date then pyStr date else ""
  { title := pyStr title
    url := pyStr url
    date := if pyTruthy date then some (pyStr date) else none
    last_update := lastUpdate
    snippet := if pyTruthy snippet then pyStr snippet else "" }

/-- The mapper `_normalize_results`: empty list on a falsy `results` attribute, else the
item-wise normalization. -/
def normalizeResults (searchResponse : ResultsAttr) : List SearchResult :=
  match searchResponse with
  | .noResults => []
  | .results items =>
      if items.isEmpty then [] else items.map normalizeItem

/-! ## The orchestrated search call -/

/-- One underlying provider-call attempt, from the caller's point of view:
the call returns a raw response, raises, or hangs past the deadline. -/
inductive ProviderCallResult
  | resp (r : ResultsAttr)
  | exn (e : PyExc)
  | hang
deriving DecidableEq

/-- The arguments `_call_search` passes to `client.search.create`. -/
structure ProviderCall where
  query : String
  maxResults : Int
  domainFilter : Option (List String)
deriving DecidableEq

/-- One pass of `_TimeoutController.run` around `invoke` (= `_call_search`
followed by `_normalize_results`): a completed call yields the normalized
results, a raised exception propagates, and a hang becomes the controller's
`TimeoutError` carrying the configured budget. -/
def runAttempt (timeoutMs : Nat) (pc : ProviderCallResult) :
    Except PyExc (List SearchResult) :=
  match pc with
  | .resp r => .ok (normalizeResults r)
  | .exn e => .error e
  | .hang => .error (timeoutErr timeoutMs)

/-- The wrapper `search_perplexity` applies to a failure of the retry
attempt: `raise Exception(f"perplexity_search failed after retry: ...")`. -/
def wrapAfterRetry (e : PyExc) : PyExc :=
  mkExc "Exception"
    ("perplexity_search failed after retry: " ++ e.className ++ ": " ++ e.message)
    false false false false

/-- Result of a full `search_perplexity` run, with an execution trace:
the returned value or raised exception, how many provider clients were
constructed, and the argument record of every provider-call attempt made. -/
structure RunResult where
  outcome : Except PyExc (List SearchResult)
  clientsCreated : Nat
  calls : List ProviderCall

/-- The attempt/retry body of `search_perplexity` (everything after input
normalization and client construction). The first attempt's exception is
re-raised when it is a `ValueError`, `EnvironmentError` (= `OSError`,
covering `TimeoutError`) or `RuntimeError`, or when it is not transient;
otherwise a single retry runs with the same deadline and any second failure
is wrapped. -/
def runValidated (timeoutMs : Nat) (call : ProviderCall)
    (a1 a2 : ProviderCallResult) : RunResult :=
  match runAttempt timeoutMs a1 with
  | .ok v => ⟨.ok v, 1, [call]⟩
  | .error exc =>
      if exc.isValueError || exc.isOSError || exc.isRuntimeError then
        ⟨.error exc, 1, [call]⟩
      else if !isTransientError exc then
        ⟨.error exc, 1, [call]⟩
      else
        match runAttempt timeoutMs a2 with
        | .ok v => ⟨.ok v, 1, [call, call]⟩
        | .error e2 => ⟨.error (wrapAfterRetry e2), 1, [call, call]⟩

/-- The operation `search_perplexity`: validate the query, clamp the cap, normalize the
domain filter, construct the client, then run the bounded call with the
single-retry policy. `a1`/`a2` are the behaviours of the up to two
underlying provider calls. -/
def searchPerplexityFull (query : String) (cap : NumInput)
    (domains : Option (List String)) (envApiKey : Option String)
    (timeoutMs : Nat) (a1 a2 : ProviderCallResult) : RunResult :=
  match validateQuery query with
  | .error e => ⟨.error e, 0, []⟩
  | .ok q =>
      match clampNumResults cap with
      | .error e => ⟨.error e, 0, []⟩
      | .ok maxResults =>
          match normalizeDomains domains with
          | .error e => ⟨.error e, 0, []⟩
          | .ok ds =>
              match createClient envApiKey with
              | .error e => ⟨.error e, 0, []⟩
              | .ok _ => runValidated timeoutMs ⟨q, maxResults, ds⟩ a1 a2

/-- The exception handling of the `perplexity_search` tool in `server.py`:
`ValueError`, and `OSError`/`RuntimeError`, are re-raised unchanged (after
logging); any other exception is wrapped in a generic `Exception`. -/
def perplexitySearchTool (outcome : Except PyExc (List SearchResult)) :
    Except PyExc (List SearchResult) :=
  match outcome with
  | .ok results => .ok results
  | .error e =>
      if e.isValueError then .error e
      else if e.isOSError || e.isRuntimeError then .error e
      else .error (mkExc "Exception"
        ("perplexity_search failed: " ++ e.className ++ ": " ++ e.message)
        false false false false)

/-! ## Auxiliary definitions used only to state the claims -/

/-- Modelled from the spec: the transient classifier as claim C3 words it —
true exactly when the failure carries a structured transport-error category,
or one of the six keywords `timeout, timed out, connection, transport,
temporarily unavailable, try again` is a case-insensitive substring of the
failure's name or message. Stated only to be compared with the source's
`isTransientError`. -/
def claimTransientC3 (exc : PyExc) : Bool :=
  exc.isHttpxTransportError ||
  msgKeywords.any (fun k =>
    pyInStr k (pyLower exc.className) || pyInStr k (pyLower exc.message))

/-- An entry `_normalize_domains` rejects: after stripping and lowercasing it
is empty, contains `://`, `/` or a space, exceeds 253 characters, or has a
character outside `[a-z0-9.-]`. -/
def badEntry (raw : String) : Bool :=
  let d := normEntry raw
  d.data.isEmpty || pyInStr "://" d || pyInStr "/" d || pyInStr " " d
    || decide (d.length > 253) || !d.data.all hostCharOk

/-- Reference order-preserving deduplication: keep the first occurrence of
each element not already in `seen`. -/
def dedupKeepFirst : List String → List String → List String
  | [], _ => []
  | x :: t, seen =>
      if seen.contains x then dedupKeepFirst t seen
      else x :: dedupKeepFirst t (x :: seen)

/-- A query of 4097 characters whose trimmed form is the single character
`a`. -/
def paddedQuery : String := ⟨'a' :: List.replicate 4096 ' '⟩

/-- First item of the worked normalization example in the spec. -/
def itemA : ProviderItem :=
  ⟨.val (.vstr "Title A"), .val (.vstr "https://a"),
   .val (.vstr "2024-01-01"), .val (.vstr "Alpha snippet")⟩

/-- Second item of the worked normalization example (only title and url). -/
def itemB : ProviderItem :=
  ⟨.val (.vstr "Title B"), .val (.vstr "https://b"), .absent, .absent⟩

/-- Expected normalization of `itemA`. -/
def recA : SearchResult :=
  ⟨"Title A", "https://a", some "2024-01-01", "2024-01-01", "Alpha snippet"⟩

/-- Expected normalization of `itemB` (no `date` key). -/
def recB : SearchResult := ⟨"Title B", "https://b", none, "", ""⟩

/-! ## Helper lemmas -/

theorem isPrefixOf_append_self (n b : List Char) : n.isPrefixOf (n ++ b) = true := by
  induction n with
  | nil => simp [List.isPrefixOf]
  | cons c t ih => simp [List.isPrefixOf, ih]

/-- The search `charsInfix` decides list infixhood. -/
theorem charsInfix_iff_infix (n h : List Char) : charsInfix n h = true ↔ n <:+: h := by
  induction h with
  | nil => simp [charsInfix]
  | cons c t ih => simp [charsInfix, ih, List.infix_cons_iff]

/-- A string whose character data decomposes around `n.data` contains `n`. -/
theorem pyInStr_of_data (n h : String) (a b : List Char)
    (hd : h.data = a ++ (n.data ++ b)) : pyInStr n h = true := by
  rw [pyInStr, charsInfix_iff_infix, hd]
  exact ⟨a, b, by simp⟩

theorem pyStrip_data_eq_nil (s : String) (h : s.data.all isPySpace = true) :
    (pyStrip s).data = [] := by
  have h1 : s.data.dropWhile isPySpace = [] :=
    List.dropWhile_eq_nil_iff.mpr (by simpa [List.all_eq_true] using h)
  simp [pyStrip, h1]

theorem dropWhile_replicate_append (p : Char → Bool) (c : Char) (hc : p c = true) :
    ∀ (n : Nat) (l : List Char),
      (List.replicate n c ++ l).dropWhile p = l.dropWhile p := by
  intro n
  induction n with
  | zero => intro l; simp
  | succ m ih => intro l; simp [List.replicate_succ, List.dropWhile_cons, hc, ih]

theorem pyStrip_paddedQuery : pyStrip paddedQuery = "a" := by
  have ha : isPySpace 'a' = false := by decide
  have hs : isPySpace ' ' = true := by decide
  show String.mk ((((('a' :: List.replicate 4096 ' ').dropWhile
    isPySpace).reverse).dropWhile isPySpace).reverse) = "a"
  rw [List.dropWhile_cons_of_neg (by simp [ha]), List.reverse_cons,
    List.reverse_replicate, dropWhile_replicate_append isPySpace ' ' hs,
    List.dropWhile_cons_of_neg (by simp [ha])]
  rfl

theorem paddedQuery_length : paddedQuery.length = 4097 := by
  show paddedQuery.data.length = 4097
  rw [show paddedQuery.data = 'a' :: List.replicate 4096 ' ' from rfl,
    List.length_cons, List.length_replicate]

/-- Once all four input stages succeed, `search_perplexity` is the retry body
applied to the normalized call arguments. -/
theorem searchPerplexityFull_ok (query q : String) (cap : NumInput) (mr : Int)
    (domains : Option (List String)) (ds : Option (List String))
    (envApiKey : Option String) (t : Nat) (a1 a2 : ProviderCallResult)
    (hq : validateQuery query = .ok q) (hc : clampNumResults cap = .ok mr)
    (hd : normalizeDomains domains = .ok ds) (hk : createClient envApiKey = .ok ()) :
    searchPerplexityFull query cap domains envApiKey t a1 a2 =
      runValidated t ⟨q, mr, ds⟩ a1 a2 := by
  rw [searchPerplexityFull, hq, hc, hd, hk]

theorem runValidated_clientsCreated (t : Nat) (call : ProviderCall)
    (a1 a2 : ProviderCallResult) : (runValidated t call a1 a2).clientsCreated = 1 := by
  rw [runValidated]
  cases runAttempt t a1 with
  | ok v => rfl
  | error e =>
      simp only
      split
      · rfl
      · split
        · rfl
        · cases runAttempt t a2 with
          | ok v => rfl
          | error e2 => rfl

theorem runValidated_calls_le_two (t : Nat) (call : ProviderCall)
    (a1 a2 : ProviderCallResult) : (runValidated t call a1 a2).calls.length ≤ 2 := by
  rw [runValidated]
  cases runAttempt t a1 with
  | ok v => simp
  | error e =>
      simp only
      split
      · simp
      · split
        · simp
        · cases runAttempt t a2 with
          | ok v => simp
          | error e2 => simp

theorem searchPerplexityFull_calls_le_two (query : String) (cap : NumInput)
    (domains : Option (List String)) (envApiKey : Option String) (t : Nat)
    (a1 a2 : ProviderCallResult) :
    (searchPerplexityFull query cap domains envApiKey t a1 a2).calls.length ≤ 2 := by
  rw [searchPerplexityFull]
  cases validateQuery query with
  | error e => simp
  | ok q =>
      cases clampNumResults cap with
      | error e => simp
      | ok mr =>
          cases normalizeDomains domains with
          | error e => simp
          | ok ds =>
              cases hk : createClient envApiKey with
              | error e => simp
              | ok u => cases u; exact runValidated_calls_le_two t _ a1 a2

/-- A transient, non-(ValueError/OSError/RuntimeError) first failure leads to
exactly one retry whose outcome is returned (successes as-is, failures
wrapped), with two identical provider calls on one client. -/
theorem runValidated_retry (t : Nat) (call : ProviderCall) (e : PyExc)
    (a2 : ProviderCallResult)
    (hve : e.isValueError = false) (hos : e.isOSError = false)
    (hrt : e.isRuntimeError = false) (htr : isTransientError e = true) :
    runValidated t call (.exn e) a2 =
      match runAttempt t a2 with
      | .ok v => ⟨.ok v, 1, [call, call]⟩
      | .error e2 => ⟨.error (wrapAfterRetry e2), 1, [call, call]⟩ := by
  rw [runValidated]
  simp only [runAttempt, hve, hos, hrt, htr, Bool.or_false, Bool.not_true,
    Bool.false_eq_true, if_false]

/-- A first failure that is a ValueError, OSError or RuntimeError is re-raised
unchanged with no second attempt. -/
theorem runValidated_no_retry (t : Nat) (call : ProviderCall) (e : PyExc)
    (a2 : ProviderCallResult)
    (h : e.isValueError = true ∨ e.isOSError = true ∨ e.isRuntimeError = true) :
    runValidated t call (.exn e) a2 = ⟨.error e, 1, [call]⟩ := by
  rw [runValidated]
  have hb : (e.isValueError || e.isOSError || e.isRuntimeError) = true := by
    rcases h with h | h | h <;> simp [h]
  simp only [runAttempt, hb, if_true]

/-! ## Claims -/

/-- Claim C8: an absent result cap yields 10, a cap below 1 yields 1, a cap
above 30 yields 30, and a cap in `[1, 30]` is used unchanged (absent, 0 and
99 give 10, 1 and 30); clamping never errors on an out-of-range integer, and
only an input not convertible to an integer fails with InvalidInput
(`ValueError`). -/
theorem C8_result_cap_clamping :
    clampNumResults .noneVal = .ok 10
    ∧ clampNumResults (.intVal 0) = .ok 1
    ∧ clampNumResults (.intVal 99) = .ok 30
    ∧ (∀ v : Int, v < 1 → clampNumResults (.intVal v) = .ok 1)
    ∧ (∀ v : Int, v > 30 → clampNumResults (.intVal v) = .ok 30)
    ∧ (∀ v : Int, 1 ≤ v → v ≤ 30 → clampNumResults (.intVal v) = .ok v)
    ∧ (∀ v : Int, ∃ r : Int, clampNumResults (.intVal v) = .ok r)
    ∧ (∀ s : String, ∃ e : PyExc, clampNumResults (.nonIntVal s) = .error e
        ∧ e.isValueError = true) := by
  refine ⟨rfl, rfl, rfl, fun v h => ?_, fun v h => ?_, fun v h1 h2 => ?_,
    fun v => ?_, fun s => ⟨_, rfl, rfl⟩⟩
  · simp only [clampNumResults, MIN_RESULTS, if_pos h]
  · have h1 : ¬ v < MIN_RESULTS := by simp only [MIN_RESULTS]; omega
    simp only [clampNumResults, if_neg h1, MAX_RESULTS, if_pos h]
  · have hl : ¬ v < MIN_RESULTS := by simp only [MIN_RESULTS]; omega
    have hh : ¬ v > MAX_RESULTS := by simp only [MAX_RESULTS]; omega
    simp only [clampNumResults, if_neg hl, if_neg hh]
  · refine ⟨if v < MIN_RESULTS then MIN_RESULTS else
      if v > MAX_RESULTS then MAX_RESULTS else v, ?_⟩
    simp only [clampNumResults]
    split_ifs <;> rfl

/-- Witness for C8 at caps −5, 77 and 15. -/
theorem C8_result_cap_clamping_witness :
    clampNumResults (.intVal (-5)) = .ok 1
    ∧ clampNumResults (.intVal 77) = .ok 30
    ∧ clampNumResults (.intVal 15) = .ok 15 :=
  ⟨C8_result_cap_clamping.2.2.2.1 (-5) (by decide),
   C8_result_cap_clamping.2.2.2.2.1 77 (by decide),
   C8_result_cap_clamping.2.2.2.2.2.1 15 (by decide) (by decide)⟩

/-- Claim C3 counterexample: an exception whose class name contains the
code's extra keyword `network` — but none of the claim's six keywords in its
name or message, and no structured transport category — is classified
transient by `_is_transient_error`, whereas the claim's characterization
("true exactly when ... one of the keywords timeout, timed out, connection,
transport, temporarily unavailable, try again matches the name or message")
requires false. -/
theorem C3_counterexample :
    isTransientError (mkExc "NetworkError" "boom" false false false false) = true
    ∧ claimTransientC3 (mkExc "NetworkError" "boom" false false false false) = false :=
  ⟨rfl, rfl⟩

/-- Claim C3 (amended): the classifier is total by construction and returns
true exactly when the failure carries a structured transport-error category,
or its lowercased class name contains one of `timeout, connect, network,
transport`, or its lowercased message contains one of `timeout, timed out,
connection, transport, temporarily unavailable, try again`; it returns false
for every other cause. -/
theorem C3_transient_classifier (e : PyExc) :
    (isTransientError e =
      (e.isHttpxTransportError
        || nameKeywords.any (fun k => pyInStr k (pyLower e.className))
        || msgKeywords.any (fun k => pyInStr k (pyLower e.message))))
    ∧ isTransientError (mkExc "ApiError" "boom" false false false true) = true
    ∧ isTransientError (mkExc "ApiError" "service Temporarily Unavailable" false false false false) = true
    ∧ isTransientError (mkExc "ValueError" "bad input" true false false false) = false := by
  refine ⟨?_, rfl, rfl, rfl⟩
  simp only [isTransientError]
  split_ifs with h1 h2 h3 <;> simp_all

/-- Claim C4: normalization returns an empty list when the result collection
is absent or empty; title, url and snippet coerce to the empty string when
absent; `last_update` mirrors a present non-empty date and is empty when the
date is absent, and the `date` key appears only for a non-empty provider
date; the spec's two-item worked example normalizes as stated. -/
theorem C4_result_normalization (it : ProviderItem) :
    (normalizeResults .noResults = [] ∧ normalizeResults (.results []) = [])
    ∧ (it.title = .absent → (normalizeItem it).title = "")
    ∧ (it.url = .absent → (normalizeItem it).url = "")
    ∧ (it.snippet = .absent → (normalizeItem it).snippet = "")
    ∧ (∀ s : String, it.date = .val (.vstr s) → s ≠ "" →
        (normalizeItem it).last_update = s ∧ (normalizeItem it).date = some s)
    ∧ (it.date = .absent →
        (normalizeItem it).last_update = "" ∧ (normalizeItem it).date = none)
    ∧ normalizeResults (.results [itemA, itemB]) = [recA, recB] := by
  refine ⟨⟨rfl, rfl⟩, fun h => ?_, fun h => ?_, fun h => ?_,
    fun s hd hs => ?_, fun h => ?_, rfl⟩
  · simp [normalizeItem, h, getattrOrNone, pyOrElse, pyTruthy, pyStr]
  · simp [normalizeItem, h, getattrOrNone, pyOrElse, pyTruthy, pyStr]
  · simp [normalizeItem, h, getattrOrNone, pyOrElse, pyTruthy, pyStr]
  · have hs' : s.data.isEmpty = false := by
      cases s with
      | mk l =>
          cases l with
          | nil => exact absurd rfl hs
          | cons a t => rfl
    constructor <;> simp [normalizeItem, hd, getattrOrNone, pyTruthy, hs', pyStr]
  · constructor <;> simp [normalizeItem, h, getattrOrNone, pyTruthy]

/-- Witness for C4 at the spec's worked example. -/
theorem C4_result_normalization_witness :
    ((normalizeItem itemA).last_update = "2024-01-01"
      ∧ (normalizeItem itemA).date = some "2024-01-01")
    ∧ ((normalizeItem itemB).last_update = "" ∧ (normalizeItem itemB).date = none)
    ∧ (normalizeItem itemB).snippet = "" :=
  ⟨(C4_result_normalization itemA).2.2.2.2.1 "2024-01-01" rfl (by decide),
   (C4_result_normalization itemB).2.2.2.2.2.1 rfl,
   (C4_result_normalization itemB).2.2.2.1 rfl⟩

/-- Claim C10: a falsy-but-present field is treated like a missing one —
falsy title/url/snippet values become the empty string, a falsy date value
(None, empty string, or 0) both omits the `date` key and empties
`last_update`, and an empty-string date produces output identical to a
missing date. -/
theorem C10_falsy_is_absent (it : ProviderItem) (v : PyVal)
    (hv : pyTruthy v = false) :
    (normalizeItem { it with title := .val v }).title = ""
    ∧ (normalizeItem { it with url := .val v }).url = ""
    ∧ (normalizeItem { it with snippet := .val v }).snippet = ""
    ∧ (normalizeItem { it with date := .val v }).date = none
    ∧ (normalizeItem { it with date := .val v }).last_update = ""
    ∧ normalizeItem { it with date := .val (.vstr "") }
        = normalizeItem { it with date := .absent } := by
  have h0 : pyTruthy (.vstr "") = false := rfl
  have h1 : pyTruthy .vnone = false := rfl
  refine ⟨?_, ?_, ?_, ?_, ?_, ?_⟩ <;>
    simp [normalizeItem, getattrOrNone, pyOrElse, pyStr, hv, h0, h1]

/-- Claim C6 counterexample: a 4097-character query (`"a"` followed by 4096
spaces) is longer than 4096 characters, yet validation accepts it — the
length check applies to the trimmed query, so the claim's "every query
string longer than 4096 characters fails" is false on the code. -/
theorem C6_counterexample :
    paddedQuery.length > 4096 ∧ validateQuery paddedQuery = .ok "a" := by
  refine ⟨by rw [paddedQuery_length]; omega, ?_⟩
  simp only [validateQuery, pyStrip_paddedQuery]
  rfl

/-- Claim C6 (amended): every empty or whitespace-only query fails with
InvalidInput; every query whose **trimmed** form is longer than 4096
characters fails with InvalidInput; every other query is accepted with
surrounding whitespace trimmed. -/
theorem C6_query_validation (query : String) :
    (query.data.all isPySpace = true →
      ∃ e, validateQuery query = .error e ∧ e.isValueError = true)
    ∧ ((pyStrip query).length > 4096 →
      ∃ e, validateQuery query = .error e ∧ e.isValueError = true)
    ∧ ((pyStrip query).data ≠ [] → (pyStrip query).length ≤ 4096 →
      validateQuery query = .ok (pyStrip query)) := by
  refine ⟨fun h => ?_, fun h => ?_, fun h1 h2 => ?_⟩
  · have hnil := pyStrip_data_eq_nil query h
    exact ⟨mkExc "ValueError"
      "query must be a non-empty string after trimming whitespace"
      true false false false, by simp [validateQuery, hnil], rfl⟩
  · have hlen : (pyStrip query).data.length > 4096 := h
    have hne : (pyStrip query).data.isEmpty = false := by
      cases hq : (pyStrip query).data with
      | nil => rw [hq] at hlen; simp at hlen
      | cons a tl => rfl
    exact ⟨mkExc "ValueError" "query exceeds maximum length of 4096 characters"
      true false false false, by simp [validateQuery, hne, h], rfl⟩
  · have hne : (pyStrip query).data.isEmpty = false := by
      cases hq : (pyStrip query).data with
      | nil => exact absurd hq h1
      | cons a tl => rfl
    have hlt : ¬ (pyStrip query).length > 4096 := Nat.not_lt.mpr h2
    simp [validateQuery, hne, hlt]

/-- Witness for C6 at a whitespace-only query and an accepted padded query. -/
theorem C6_query_validation_witness :
    (∃ e, validateQuery "   " = .error e ∧ e.isValueError = true)
    ∧ validateQuery "  hi  " = .ok (pyStrip "  hi  ")
    ∧ pyStrip "  hi  " = "hi" :=
  ⟨(C6_query_validation "   ").1 (by decide),
   (C6_query_validation "  hi  ").2.2 (by decide) (by decide), rfl⟩

/-- Claim C2: a first attempt that exceeds the configured deadline fails
immediately with the controller's Timeout failure (an `OSError` subclass,
hence never retried) after exactly one provider-call attempt, and the
failure's message contains the configured timeout value. -/
theorem C2_timeout_not_retried (query q : String) (cap : NumInput) (mr : Int)
    (domains ds : Option (List String)) (envApiKey : Option String) (t : Nat)
    (a2 : ProviderCallResult)
    (hq : validateQuery query = .ok q) (hc : clampNumResults cap = .ok mr)
    (hd : normalizeDomains domains = .ok ds) (hk : createClient envApiKey = .ok ()) :
    searchPerplexityFull query cap domains envApiKey t .hang a2 =
      ⟨.error (timeoutErr t), 1, [⟨q, mr, ds⟩]⟩
    ∧ (timeoutErr t).className = "TimeoutError"
    ∧ pyInStr (toString t) (timeoutErr t).message = true := by
  refine ⟨?_, rfl, ?_⟩
  · rw [searchPerplexityFull_ok query q cap mr domains ds envApiKey t .hang a2
      hq hc hd hk]
    rfl
  · apply pyInStr_of_data _ _ "Perplexity search timed out after ".data "ms".data
    show ("Perplexity search timed out after " ++ toString t ++ "ms").data = _
    simp [String.data_append, List.append_assoc]

/-- Witness for C2 with a 5000 ms deadline. -/
theorem C2_timeout_not_retried_witness :
    searchPerplexityFull "q" .noneVal none (some "k") 5000 .hang .hang =
      ⟨.error (timeoutErr 5000), 1, [⟨"q", 10, none⟩]⟩
    ∧ pyInStr "5000" (timeoutErr 5000).message = true :=
  ⟨(C2_timeout_not_retried "q" "q" .noneVal 10 none none (some "k") 5000 .hang
      rfl rfl rfl rfl).1,
   (C2_timeout_not_retried "q" "q" .noneVal 10 none none (some "k") 5000 .hang
      rfl rfl rfl rfl).2.2⟩

/-- Claim C5: a first-attempt failure that is InvalidInput (`ValueError`) or
ConfigurationError (`OSError`) is re-raised immediately with no second
attempt — no non-transience hypothesis is needed, so this covers failures
whose text matches transient keywords — and the tool wrapper in `server.py`
re-raises it in its original unwrapped form. -/
theorem C5_invalid_config_never_retried (query q : String) (cap : NumInput)
    (mr : Int) (domains ds : Option (List String)) (envApiKey : Option String)
    (t : Nat) (e : PyExc) (a2 : ProviderCallResult)
    (hq : validateQuery query = .ok q) (hc : clampNumResults cap = .ok mr)
    (hd : normalizeDomains domains = .ok ds) (hk : createClient envApiKey = .ok ())
    (he : e.isValueError = true ∨ e.isOSError = true) :
    searchPerplexityFull query cap domains envApiKey t (.exn e) a2 =
      ⟨.error e, 1, [⟨q, mr, ds⟩]⟩
    ∧ perplexitySearchTool (.error e) = .error e := by
  constructor
  · rw [searchPerplexityFull_ok query q cap mr domains ds envApiKey t (.exn e) a2
      hq hc hd hk]
    refine runValidated_no_retry t _ e a2 ?_
    rcases he with h | h
    · exact .inl h
    · exact .inr (.inl h)
  · rcases he with h | h
    · simp [perplexitySearchTool, h]
    · by_cases hv : e.isValueError <;> simp [perplexitySearchTool, hv, h]

/-- Witness for C5: a `ValueError` whose message matches transient keywords
is still not retried. -/
theorem C5_invalid_config_never_retried_witness :
    isTransientError (mkExc "ValueError" "connection timed out" true false false false) = true
    ∧ (searchPerplexityFull "q" .noneVal none (some "k") 5000
        (.exn (mkExc "ValueError" "connection timed out" true false false false)) .hang
        = ⟨.error (mkExc "ValueError" "connection timed out" true false false false),
            1, [⟨"q", 10, none⟩]⟩
      ∧ perplexitySearchTool
          (.error (mkExc "ValueError" "connection timed out" true false false false))
          = .error (mkExc "ValueError" "connection timed out" true false false false)) :=
  ⟨rfl,
   C5_invalid_config_never_retried "q" "q" .noneVal 10 none none (some "k") 5000
     (mkExc "ValueError" "connection timed out" true false false false) .hang
     rfl rfl rfl rfl (.inl rfl)⟩

/-- Claim C1: when the first provider-call attempt fails with a transient
connectivity-class failure that is none of the immediately re-raised
categories (`ValueError`/InvalidInput, `OSError`/configuration — which
includes Timeout — or `RuntimeError`), exactly one more attempt runs with
the same deadline budget: a second-attempt success yields the normalized
result with exactly two provider-call attempts, any second failure
(including a second timeout) is terminal and wrapped with the
`after retry` context, and every execution makes at most two attempts. -/
theorem C1_single_retry_on_transient (query q : String) (cap : NumInput) (mr : Int)
    (domains ds : Option (List String)) (envApiKey : Option String) (t : Nat)
    (e : PyExc) (a2 : ProviderCallResult)
    (hq : validateQuery query = .ok q) (hc : clampNumResults cap = .ok mr)
    (hd : normalizeDomains domains = .ok ds) (hk : createClient envApiKey = .ok ())
    (hve : e.isValueError = false) (hos : e.isOSError = false)
    (hrt : e.isRuntimeError = false) (htr : isTransientError e = true) :
    (∀ r, a2 = .resp r →
      searchPerplexityFull query cap domains envApiKey t (.exn e) a2 =
        ⟨.ok (normalizeResults r), 1, [⟨q, mr, ds⟩, ⟨q, mr, ds⟩]⟩)
    ∧ (∀ e2, a2 = .exn e2 →
      searchPerplexityFull query cap domains envApiKey t (.exn e) a2 =
        ⟨.error (wrapAfterRetry e2), 1, [⟨q, mr, ds⟩, ⟨q, mr, ds⟩]⟩
      ∧ (wrapAfterRetry e2).message =
          "perplexity_search failed after retry: " ++ e2.className ++ ": "
            ++ e2.message)
    ∧ (a2 = .hang →
      searchPerplexityFull query cap domains envApiKey t (.exn e) a2 =
        ⟨.error (wrapAfterRetry (timeoutErr t)), 1, [⟨q, mr, ds⟩, ⟨q, mr, ds⟩]⟩)
    ∧ (∀ (query2 : String) (cap2 : NumInput) (domains2 : Option (List String))
        (env2 : Option String) (t2 : Nat) (b1 b2 : ProviderCallResult),
      (searchPerplexityFull query2 cap2 domains2 env2 t2 b1 b2).calls.length ≤ 2) := by
  have hfull : searchPerplexityFull query cap domains envApiKey t (.exn e) a2 =
      runValidated t ⟨q, mr, ds⟩ (.exn e) a2 :=
    searchPerplexityFull_ok query q cap mr domains ds envApiKey t (.exn e) a2
      hq hc hd hk
  have hret := runValidated_retry t ⟨q, mr, ds⟩ e a2 hve hos hrt htr
  refine ⟨fun r hr => ?_, fun e2 h2 => ⟨?_, rfl⟩, fun hh => ?_,
    fun query2 cap2 domains2 env2 t2 b1 b2 =>
      searchPerplexityFull_calls_le_two query2 cap2 domains2 env2 t2 b1 b2⟩
  · subst hr; rw [hfull, hret]; rfl
  · subst h2; rw [hfull, hret]; rfl
  · subst hh; rw [hfull, hret]; rfl

/-- Witness for C1: a structured httpx connection error on the first attempt
followed by a successful second attempt. -/
theorem C1_single_retry_on_transient_witness :
    searchPerplexityFull "q" .noneVal none (some "k") 5000
      (.exn (mkExc "ConnectError" "boom" false false false true))
      (.resp (.results [itemA])) =
      ⟨.ok (normalizeResults (.results [itemA])), 1,
        [⟨"q", 10, none⟩, ⟨"q", 10, none⟩]⟩ :=
  (C1_single_retry_on_transient "q" "q" .noneVal 10 none none (some "k") 5000
    (mkExc "ConnectError" "boom" false false false true) (.resp (.results [itemA]))
    rfl rfl rfl rfl rfl rfl rfl rfl).1 (.results [itemA]) rfl

/-- Claim C9: the provider client is constructed exactly once, after input
validation and before the first attempt — a missing, empty or
whitespace-only `PERPLEXITY_API_KEY` yields the `OSError` configuration
failure with zero clients and zero provider-call attempts; whenever the key
is accepted the client is created exactly once; on the retry path both
attempts carry the same normalized query, cap and host filter through that
one client; and a validation failure makes zero clients and zero attempts. -/
theorem C9_client_once_and_reuse (query q : String) (cap : NumInput) (mr : Int)
    (domains ds : Option (List String)) (t : Nat) (a1 a2 : ProviderCallResult)
    (hq : validateQuery query = .ok q) (hc : clampNumResults cap = .ok mr)
    (hd : normalizeDomains domains = .ok ds) :
    (∀ envKey : Option String, (envKey.getD "").data.all isPySpace = true →
      searchPerplexityFull query cap domains envKey t a1 a2 =
        ⟨.error (mkExc "OSError" "PERPLEXITY_API_KEY is required but missing or empty"
            false true false false), 0, []⟩)
    ∧ (∀ envKey : Option String, createClient envKey = .ok () →
      (searchPerplexityFull query cap domains envKey t a1 a2).clientsCreated = 1)
    ∧ (∀ (envKey : Option String) (e : PyExc), createClient envKey = .ok () →
      e.isValueError = false → e.isOSError = false → e.isRuntimeError = false →
      isTransientError e = true →
      (searchPerplexityFull query cap domains envKey t (.exn e) a2).clientsCreated = 1
      ∧ (searchPerplexityFull query cap domains envKey t (.exn e) a2).calls =
          [⟨q, mr, ds⟩, ⟨q, mr, ds⟩])
    ∧ (∀ (query2 : String) (e2 : PyExc), validateQuery query2 = .error e2 →
      searchPerplexityFull query2 cap domains none t a1 a2 = ⟨.error e2, 0, []⟩) := by
  refine ⟨fun envKey h => ?_, fun envKey hk => ?_, fun envKey e hk hve hos hrt htr => ?_,
    fun query2 e2 hv2 => ?_⟩
  · have hcc : createClient envKey =
        .error (mkExc "OSError" "PERPLEXITY_API_KEY is required but missing or empty"
          false true false false) := by
      have hnil := pyStrip_data_eq_nil (envKey.getD "") h
      simp [createClient, hnil]
    rw [searchPerplexityFull, hq, hc, hd, hcc]
  · rw [searchPerplexityFull_ok query q cap mr domains ds envKey t a1 a2 hq hc hd hk]
    exact runValidated_clientsCreated t _ a1 a2
  · rw [searchPerplexityFull_ok query q cap mr domains ds envKey t (.exn e) a2
      hq hc hd hk, runValidated_retry t _ e a2 hve hos hrt htr]
    cases runAttempt t a2 <;> exact ⟨rfl, rfl⟩
  · rw [searchPerplexityFull, hv2]

/-- Witness for C9: a whitespace-only key fails with zero attempts; a valid
key with a transient first failure makes two identical attempts. -/
theorem C9_client_once_and_reuse_witness :
    searchPerplexityFull "q" .noneVal none (some "   ") 5000 .hang .hang =
      ⟨.error (mkExc "OSError" "PERPLEXITY_API_KEY is required but missing or empty"
          false true false false), 0, []⟩
    ∧ (searchPerplexityFull "q" .noneVal none (some "k") 5000
        (.exn (mkExc "ReadTimeout" "t" false false false true))
        (.resp .noResults)).calls = [⟨"q", 10, none⟩, ⟨"q", 10, none⟩] :=
  ⟨(C9_client_once_and_reuse "q" "q" .noneVal 10 none none 5000 .hang .hang
      rfl rfl rfl).1 (some "   ") (by decide),
   ((C9_client_once_and_reuse "q" "q" .noneVal 10 none none 5000 .hang
      (.resp .noResults) rfl rfl rfl).2.2.1 (some "k")
      (mkExc "ReadTimeout" "t" false false false true) rfl rfl rfl rfl rfl).2⟩

/-- A rejected entry anywhere in the list makes the whole normalization loop
fail with a `ValueError`, regardless of the other entries. -/
theorem normalizeDomainsGo_error_of_bad :
    ∀ (ds seen norm : List String), (∃ raw ∈ ds, badEntry raw = true) →
      ∃ e, normalizeDomainsGo ds seen norm = .error e ∧ e.isValueError = true := by
  intro ds
  induction ds with
  | nil =>
      rintro seen norm ⟨raw, hm, _⟩
      exact absurd hm (List.not_mem_nil raw)
  | cons raw rest ih =>
      rintro seen norm ⟨r, hm, hbad⟩
      by_cases h1 : (normEntry raw).data.isEmpty = true
      · exact ⟨mkExc "ValueError" "search_domain_filter contains an empty domain"
          true false false false, by simp [normalizeDomainsGo, h1], rfl⟩
      · simp only [Bool.not_eq_true] at h1
        by_cases h2 : (pyInStr "://" (normEntry raw) || pyInStr "/" (normEntry raw)
            || pyInStr " " (normEntry raw)) = true
        · exact ⟨mkExc "ValueError" ("invalid domain (must be hostname only): " ++ raw)
            true false false false, by simp [normalizeDomainsGo, h1, h2], rfl⟩
        · simp only [Bool.not_eq_true, Bool.or_eq_false_iff] at h2
          obtain ⟨⟨hb1, hb2⟩, hb3⟩ := h2
          by_cases h3 : (normEntry raw).length > 253
          · exact ⟨mkExc "ValueError" ("invalid domain (length > 253): " ++ raw)
              true false false false,
              by simp [normalizeDomainsGo, h1, hb1, hb2, hb3, h3], rfl⟩
          · by_cases h4 : (!(normEntry raw).data.all hostCharOk) = true
            · exact ⟨mkExc "ValueError"
                ("invalid domain (allowed: a-z, 0-9, dot, hyphen): " ++ raw)
                true false false false,
                by simp [normalizeDomainsGo, h1, hb1, hb2, hb3, h3, h4], rfl⟩
            · simp only [Bool.not_eq_true] at h4
              rcases List.mem_cons.mp hm with hr | hr
              · -- the offending entry is `raw` itself: contradiction
                subst hr
                have hbfalse : badEntry r = false := by
                  simp [badEntry, h1, hb1, hb2, hb3, decide_eq_false h3, h4]
                rw [hbad] at hbfalse
                exact Bool.noConfusion hbfalse
              · by_cases h5 : normEntry raw ∈ seen
                · obtain ⟨e, he, hv⟩ := ih seen norm ⟨r, hr, hbad⟩
                  exact ⟨e, by
                    simp [normalizeDomainsGo, h1, hb1, hb2, hb3, h3, h4, h5, he], hv⟩
                · obtain ⟨e, he, hv⟩ :=
                    ih (normEntry raw :: seen) (norm ++ [normEntry raw]) ⟨r, hr, hbad⟩
                  exact ⟨e, by
                    simp [normalizeDomainsGo, h1, hb1, hb2, hb3, h3, h4, h5, he], hv⟩

/-- When every entry is accepted, the loop returns the accumulated output
followed by the stripped+lowercased entries, first occurrences only. -/
theorem normalizeDomainsGo_ok_of_good :
    ∀ (ds seen norm : List String), (∀ raw ∈ ds, badEntry raw = false) →
      normalizeDomainsGo ds seen norm =
        .ok (norm ++ dedupKeepFirst (ds.map normEntry) seen) := by
  intro ds
  induction ds with
  | nil => intro seen norm h; simp [normalizeDomainsGo, dedupKeepFirst]
  | cons raw rest ih =>
      intro seen norm h
      have hgood := h raw (List.mem_cons_self raw rest)
      simp only [badEntry, Bool.or_eq_false_iff] at hgood
      obtain ⟨⟨⟨⟨⟨h1, h2⟩, h3⟩, h4⟩, h5⟩, h6⟩ := hgood
      have hlen : ¬ (normEntry raw).length > 253 := of_decide_eq_false h5
      have hrest : ∀ raw2 ∈ rest, badEntry raw2 = false :=
        fun raw2 hm => h raw2 (List.mem_cons_of_mem raw hm)
      by_cases hdup : normEntry raw ∈ seen
      · rw [show normalizeDomainsGo (raw :: rest) seen norm =
            normalizeDomainsGo rest seen norm from by
          simp [normalizeDomainsGo, h1, h2, h3, h4, hlen, h6, hdup]]
        rw [ih seen norm hrest]
        simp [dedupKeepFirst, hdup]
      · rw [show normalizeDomainsGo (raw :: rest) seen norm =
            normalizeDomainsGo rest (normEntry raw :: seen)
              (norm ++ [normEntry raw]) from by
          simp [normalizeDomainsGo, h1, h2, h3, h4, hlen, h6, hdup]]
        rw [ih (normEntry raw :: seen) (norm ++ [normEntry raw]) hrest]
        simp [dedupKeepFirst, hdup]

/-- Claim C7 counterexample: the entry `" a.com"` contains a space, which the
claim says must fail the whole request with InvalidInput, yet
`_normalize_domains` strips surrounding whitespace before checking and
accepts the filter as `["a.com"]`. -/
theorem C7_counterexample :
    pyInStr " " " a.com" = true
    ∧ normalizeDomains (some [" a.com"]) = .ok (some ["a.com"]) :=
  ⟨rfl, rfl⟩

/-- Claim C7 (amended): entries are stripped of surrounding whitespace and
lowercased, order of first occurrence is preserved and exact duplicates are
removed; any entry that **after stripping and lowercasing** is empty,
contains `://`, `/` or a space, exceeds 253 characters, or has a character
outside `[a-z0-9.-]` fails the entire request with InvalidInput regardless
of other valid entries; a provided-but-empty filter is InvalidInput rather
than a silent "no filter". -/
theorem C7_domain_filter_normalization :
    normalizeDomains (some ["Example.com", "example.com", "sub.domain.com"])
      = .ok (some ["example.com", "sub.domain.com"])
    ∧ (∀ (ds : List String) (raw : String), raw ∈ ds → badEntry raw = true →
        ∃ e, normalizeDomains (some ds) = .error e ∧ e.isValueError = true)
    ∧ (∃ e, normalizeDomains (some []) = .error e ∧ e.isValueError = true)
    ∧ (∀ ds : List String, ds ≠ [] → (∀ raw ∈ ds, badEntry raw = false) →
        normalizeDomains (some ds) =
          .ok (some (dedupKeepFirst (ds.map normEntry) []))) := by
  refine ⟨rfl, fun ds raw hm hbad => ?_,
    ⟨mkExc "ValueError" "search_domain_filter, when provided, must be a non-empty list"
      true false false false, rfl, rfl⟩, fun ds hne hgood => ?_⟩
  · have hene : ds.isEmpty = false := by
      cases ds with
      | nil => exact absurd hm (List.not_mem_nil raw)
      | cons a l => rfl
    obtain ⟨e, he, hv⟩ := normalizeDomainsGo_error_of_bad ds [] [] ⟨raw, hm, hbad⟩
    exact ⟨e, by simp [normalizeDomains, hene, he], hv⟩
  · cases ds with
    | nil => exact absurd rfl hne
    | cons raw rest =>
        have hgo := normalizeDomainsGo_ok_of_good (raw :: rest) [] [] hgood
        have hdd : dedupKeepFirst ((raw :: rest).map normEntry) [] =
            normEntry raw :: dedupKeepFirst (rest.map normEntry) [normEntry raw] := by
          simp [dedupKeepFirst]
        rw [hdd] at hgo ⊢
        simp [normalizeDomains, hgo]

/-- Witness for C7: one path-bearing entry poisons the whole filter, while an
all-valid filter is lowercased and deduplicated. -/
theorem C7_domain_filter_normalization_witness :
    (∃ e, normalizeDomains (some ["good.com", "bad.com/path"]) = .error e
        ∧ e.isValueError = true)
    ∧ normalizeDomains (some ["A.com", "a.com", "b.com"]) =
        .ok (some (dedupKeepFirst (["A.com", "a.com", "b.com"].map normEntry) [])) :=
  ⟨C7_domain_filter_normalization.2.1 ["good.com", "bad.com/path"] "bad.com/path"
      (by decide) (by decide),
   C7_domain_filter_normalization.2.2.2 ["A.com", "a.com", "b.com"]
      (by decide) (by decide)⟩

/-- Witness for C10 at the falsy values 0, `""` and None. -/
theorem C10_falsy_is_absent_witness :
    (normalizeItem { itemA with title := .val (.vint 0) }).title = ""
    ∧ (normalizeItem { itemA with date := .val (.vstr "") }).date = none
    ∧ (normalizeItem { itemA with snippet := .val .vnone }).snippet = "" :=
  ⟨(C10_falsy_is_absent itemA (.vint 0) rfl).1,
   (C10_falsy_is_absent itemA (.vstr "") rfl).2.2.2.1,
   (C10_falsy_is_absent itemA .vnone rfl).2.2.1⟩

end SearchMCP
